import Mathlib

/-
Shallow embedding of the gauss GPU-compute library (src/lib) for
specification checking.  Vulkan object handles are modelled as `Nat`,
GPU-visible mapped memory as `List Nat` (word contents; the copies in the
source are bitwise, so f32 values are modelled as abstract machine words),
fallible external calls (driver entry points, the sub-allocating memory
manager) as oracle fields returning `Except`, and side effects (command
recording, host memcpy through mapped pointers, log output, object
destruction) as explicit event traces.  A Rust `panic!`/`unwrap` on `None`
is modelled by an `Option` result where `none` is the panic.
-/

namespace Gauss

/-- gpu_allocator::MemoryLocation, as used by the library. -/
inductive MemoryLocation where
  | GpuOnly
  | CpuToGpu
deriving DecidableEq

/-- src/lib/allocation_strategy.rs: `enum AllocationError`. -/
inductive AllocationError where
  | AllocatorCreationFailure
  | BufferCreationFailure
  | MemoryAllocationError
  | MemoryBindFailure
deriving DecidableEq

namespace BufferUsageFlags

def TRANSFER_SRC : Nat := 0x1

def TRANSFER_DST : Nat := 0x2

def STORAGE_BUFFER : Nat := 0x20

end BufferUsageFlags

namespace PipelineStageFlags

def COMPUTE_SHADER : Nat := 0x800

def TRANSFER : Nat := 0x1000

end PipelineStageFlags

namespace AccessFlags

def MEMORY_READ : Nat := 0x8000

def MEMORY_WRITE : Nat := 0x10000

end AccessFlags

/-- src/lib/allocation_strategy.rs: `struct Buffer` — a vk::Buffer handle plus
its memory allocation; `mapped` models the host-visible mapped contents of the
allocation (`allocation.mapped_ptr()`), word by word. -/
structure Buffer where
  handle : Nat
  mapped : List Nat
deriving DecidableEq

/-- src/lib/allocation_strategy.rs: `struct Tensor` (field names as in the
source; `local_data` is the flat numeric vector, elements modelled as words). -/
structure Tensor where
  id : Nat
  readback_enabled : Bool
  local_data : List Nat
deriving DecidableEq

/-- `Tensor::data()` — read access to the host data. -/
def Tensor.data (t : Tensor) : List Nat := t.local_data

/-- src/lib/gpu_task.rs: `struct TensorBufferBacking`. -/
structure TensorBufferBacking where
  gpu_buffer : Buffer
  staging_buffer : Buffer
  readback_buffer : Option Buffer
deriving DecidableEq

/-- Association-list model of `HashMap<u32, _>`: overwriting insert, as
performed by `HashMap::insert`. -/
def hmInsert {α : Type} : List (Nat × α) → Nat → α → List (Nat × α)
  | [], k, v => [(k, v)]
  | (k', v') :: rest, k, v =>
      if k' = k then (k, v) :: rest else (k', v') :: hmInsert rest k v

/-- Association-list model of `HashMap::get`. -/
def hmGet {α : Type} : List (Nat × α) → Nat → Option α
  | [], _ => none
  | (k', v) :: rest, k => if k' = k then some v else hmGet rest k

/-- Oracle for the three fallible external calls inside
`Allocator::allocate_buffer`: `vkCreateBuffer` (returning a fresh handle), the
sub-allocating memory manager `vulkan_allocator.allocate` (returning the mapped
contents of the new allocation) and `vkBindBufferMemory`. -/
structure AllocEnv where
  createBufferResult : Except Unit Nat
  memAllocResult : Except Unit (List Nat)
  bindResult : Except Unit Unit

/-- Observable external actions of `Allocator::allocate_buffer`. -/
inductive AllocEvent where
  | createBuffer (handle size usage queueFamily : Nat)
  | getBufferMemoryRequirements (handle : Nat)
  | memAllocate (name : String) (location : MemoryLocation)
  | bindBufferMemory (handle : Nat)
  | destroyBuffer (handle : Nat)
deriving DecidableEq

/-- src/lib/allocation_strategy.rs: `Allocator::allocate_buffer`.  Mirrors the
source control flow: create the buffer object, query its memory requirements,
sub-allocate memory, bind it; each failure returns its distinct error kind.
Note the source performs no cleanup call on any failure path: the trace on the
sub-allocation failure path contains no `destroyBuffer` event, exactly as the
source returns `Err(MemoryAllocationError)` directly. -/
def allocate_buffer (env : AllocEnv) (size : Nat) (usage : Nat)
    (location : MemoryLocation) (name : String) (queue_family : Nat) :
    Except AllocationError Buffer × List AllocEvent :=
  match env.createBufferResult with
  | .error _ => (.error .BufferCreationFailure, [])
  | .ok h =>
      let evs0 := [AllocEvent.createBuffer h size usage queue_family,
                   AllocEvent.getBufferMemoryRequirements h]
      match env.memAllocResult with
      | .error _ =>
          (.error .MemoryAllocationError, evs0 ++ [AllocEvent.memAllocate name location])
      | .ok mapped =>
          match env.bindResult with
          | .error _ =>
              (.error .MemoryBindFailure,
               evs0 ++ [AllocEvent.memAllocate name location, AllocEvent.bindBufferMemory h])
          | .ok _ =>
              (.ok { handle := h, mapped := mapped },
               evs0 ++ [AllocEvent.memAllocate name location, AllocEvent.bindBufferMemory h])

/-- src/lib/allocation_strategy.rs: `ComputeManager::create_tensor`.  The
`current` argument is the value stored in the manager's `AtomicU32`
`current_tensor_id` (so `current < 2^32`); `fetch_add(1)` returns the stored
value as the new id and stores the wrapped successor. -/
def create_tensor (current : Nat) (data : List Nat) (enable_readback : Bool) :
    Tensor × Nat :=
  ({ id := current, readback_enabled := enable_readback, local_data := data },
   (current + 1) % 2 ^ 32)

/-- A sequence of `create_tensor` calls on one ComputeManager, threading the
atomic counter; returns the created tensors in call order and the final
counter value.  `compute_init` starts the counter at 0. -/
def runCreates : Nat → List (List Nat × Bool) → List Tensor × Nat
  | s, [] => ([], s)
  | s, (d, r) :: rest =>
      let p := create_tensor s d r
      let q := runCreates p.2 rest
      (p.1 :: q.1, q.2)

/-- src/lib/pipeline.rs: `enum PipelineCreateError`. -/
inductive PipelineCreateError where
  | InvalidShader
  | DescriptorSetLayoutCreationFailure
  | PipelineLayoutCreationFailure
  | PipelineCreationFailure
  | DescriptorPoolCreationFailure
  | DescriptorSetAllocationFailure
deriving DecidableEq

/-- src/lib/pipeline.rs: `struct Pipeline` — the four GPU object handles it
owns (the `parent` back-pointer carries no verified state). -/
structure Pipeline where
  pipeline : Nat
  pipeline_layout : Nat
  descriptor_set_layout : Nat
  descriptor_pool : Nat
deriving DecidableEq

/-- Oracle for the fallible driver calls inside
`ComputeManager::build_pipeline`, each returning a fresh handle. -/
structure PipelineEnv where
  createDescriptorSetLayout : Except Unit Nat
  createPipelineLayout : Except Unit Nat
  createComputePipelines : Except Unit Nat
  createDescriptorPool : Except Unit Nat

/-- Observable external actions of `build_pipeline`. -/
inductive PipelineEvent where
  | createDescriptorSetLayout (handle bindingCount : Nat)
  | createPipelineLayout (handle setLayout : Nat)
  | createComputePipelines (handle layout : Nat)
  | destroyShaderModule (m : Nat)
  | createDescriptorPool (handle maxSets poolSizeCount descriptorCount : Nat)
deriving DecidableEq

/-- src/lib/pipeline.rs: `ComputeManager::build_pipeline`.  Creates the
descriptor-set layout (`n_tensors` storage-buffer bindings), the pipeline
layout over that single set, the compute pipeline, destroys the shader
module, then creates the descriptor pool (max_sets = 10, one pool size of
`n_tensors` storage-buffer descriptors). -/
def build_pipeline (env : PipelineEnv) (shader_module : Nat) (n_tensors : Nat) :
    Except PipelineCreateError (Pipeline × List PipelineEvent) :=
  match env.createDescriptorSetLayout with
  | .error _ => .error .DescriptorSetLayoutCreationFailure
  | .ok dsl =>
      match env.createPipelineLayout with
      | .error _ => .error .PipelineLayoutCreationFailure
      | .ok pl =>
          match env.createComputePipelines with
          | .error _ => .error .PipelineCreationFailure
          | .ok p =>
              match env.createDescriptorPool with
              | .error _ => .error .DescriptorPoolCreationFailure
              | .ok pool =>
                  .ok ({ pipeline := p, pipeline_layout := pl,
                         descriptor_set_layout := dsl, descriptor_pool := pool },
                       [PipelineEvent.createDescriptorSetLayout dsl n_tensors,
                        PipelineEvent.createPipelineLayout pl dsl,
                        PipelineEvent.createComputePipelines p pl,
                        PipelineEvent.destroyShaderModule shader_module,
                        PipelineEvent.createDescriptorPool pool 10 1 n_tensors])

/-- GPU-object release actions performed by destructors. -/
inductive DestroyEvent where
  | pipeline (h : Nat)
  | pipelineLayout (h : Nat)
  | descriptorSetLayout (h : Nat)
  | descriptorPool (h : Nat)
deriving DecidableEq

/-- src/lib/pipeline.rs: `impl Drop for Pipeline` — the destroy calls in the
exact order the source issues them: pipeline layout, descriptor-set layout,
descriptor pool, and the compute pipeline last. -/
def pipelineDrop (p : Pipeline) : List DestroyEvent :=
  [DestroyEvent.pipelineLayout p.pipeline_layout,
   DestroyEvent.descriptorSetLayout p.descriptor_set_layout,
   DestroyEvent.descriptorPool p.descriptor_pool,
   DestroyEvent.pipeline p.pipeline]

/-- src/lib/gpu_task.rs: `enum GPUTaskRecordingError`. -/
inductive GPUTaskRecordingError where
  | CommandBufferAllocationFailure
  | CommandBufferRecordingStartFailure
  | BufferAllocationFailure
  | DescriptorSetAllocationFailure
  | UnknownError
deriving DecidableEq

/-- Commands recorded into a command buffer (`vkCmd*` calls). -/
inductive Cmd where
  | bindPipeline (p : Nat)
  | bindDescriptorSets (layout ds : Nat)
  | copyBuffer (src dst srcOffset dstOffset size : Nat)
  | pipelineBarrier (srcStage dstStage srcAccess dstAccess : Nat)
  | dispatch (x y z : Nat)
deriving DecidableEq

/-- One `vk::WriteDescriptorSet` with its `DescriptorBufferInfo`, as filled in
by `new_task` (descriptor type is always STORAGE_BUFFER there). -/
structure DescriptorWrite where
  dst_set : Nat
  dst_binding : Nat
  dst_array_element : Nat
  descriptor_count : Nat
  buffer : Nat
  offset : Nat
  range : Nat
deriving DecidableEq

/-- Observable actions of task construction, recording and completion:
driver-object events, command recording, host memcpys through mapped
pointers, fence operations and `log::error!` diagnostics. -/
inductive Event where
  | hostCopy (dstBuffer : Nat) (words : List Nat)
  | recorded (c : Cmd)
  | report (msg : String)
  | createDescriptorPool (handle maxSets poolSizeCount descriptorCount : Nat)
  | allocateDescriptorSet (pool setLayout handle : Nat)
  | updateDescriptorSets (writes : List DescriptorWrite)
  | allocateCommandBuffer (handle : Nat)
  | beginCommandBuffer (handle : Nat)
  | waitFences (fence timeout : Nat)
  | destroyFence (fence : Nat)
deriving DecidableEq

/-- src/lib/gpu_task.rs: `struct GPUTask`.  `command_buffer` is the handle,
`commands` the commands recorded into it so far (driver-side recording
state). -/
structure GPUTask where
  command_buffer : Nat
  commands : List Cmd
  buffers : List (Nat × TensorBufferBacking)
  descriptor_set : Nat
  parent_descriptor_pool : Nat
deriving DecidableEq

/-- src/lib/gpu_task.rs: `struct GPUTaskInProcess`. -/
structure GPUTaskInProcess where
  errno : Option GPUTaskRecordingError
  task : Option GPUTask
deriving DecidableEq

/-- src/lib/gpu_task.rs: `struct WorkGroupSize`. -/
structure WorkGroupSize where
  x : Nat
  y : Nat
  z : Nat
deriving DecidableEq

/-- Arguments of one `Allocator::allocate_buffer` call issued by `new_task`. -/
structure AllocRequest where
  size : Nat
  usage : Nat
  location : MemoryLocation
  name : String
  queue_family : Nat

/-- Oracle environment for `new_task`: the shared allocator (indexed by the
running count of `allocate_buffer` calls in this `new_task` invocation) and
the fallible driver calls, plus the compute queue family index from
`device_info`.  Lock acquisition on the allocator is modelled as always
succeeding (lock poisoning is a concurrency condition outside this
embedding). -/
structure NewTaskEnv where
  alloc : Nat → AllocRequest → Except AllocationError Buffer
  createDescriptorPool : Except Unit Nat
  allocateDescriptorSets : Except Unit Nat
  allocateCommandBuffer : Except Unit Nat
  beginCommandBuffer : Except Unit Unit
  computeQueueFamily : Nat

/-- The device-local buffer request for one binding (storage + transfer-src +
transfer-dst usage, GPU-only memory). -/
def gpuBufferRequest (env : NewTaskEnv) (t : Tensor) : AllocRequest :=
  { size := t.local_data.length * 4,
    usage := BufferUsageFlags.STORAGE_BUFFER ||| BufferUsageFlags.TRANSFER_SRC |||
             BufferUsageFlags.TRANSFER_DST,
    location := MemoryLocation.GpuOnly,
    name := "gpu_only_alloc\x7bid=" ++ toString t.id ++ "\x7d",
    queue_family := env.computeQueueFamily }

/-- The staging buffer request for one binding (transfer-src, host-visible). -/
def stagingBufferRequest (env : NewTaskEnv) (t : Tensor) : AllocRequest :=
  { size := t.local_data.length * 4,
    usage := BufferUsageFlags.TRANSFER_SRC,
    location := MemoryLocation.CpuToGpu,
    name := "gpu_staging_only_alloc\x7bid=" ++ toString t.id ++ "\x7d",
    queue_family := env.computeQueueFamily }

/-- The readback buffer request for one binding (transfer-dst, host-visible;
the source reuses the staging debug name). -/
def readbackBufferRequest (env : NewTaskEnv) (t : Tensor) : AllocRequest :=
  { size := t.local_data.length * 4,
    usage := BufferUsageFlags.TRANSFER_DST,
    location := MemoryLocation.CpuToGpu,
    name := "gpu_staging_only_alloc\x7bid=" ++ toString t.id ++ "\x7d",
    queue_family := env.computeQueueFamily }

/-- The buffer-allocation loop of `new_task`: per binding, allocate the
device-local buffer, the staging buffer, and — only if `readback_enabled` —
the readback buffer, then insert the backing under the tensor id.  Any
allocation failure aborts the loop. -/
def newTaskAlloc (env : NewTaskEnv) :
    Nat → List (Nat × TensorBufferBacking) → List Tensor →
      Except Unit (List (Nat × TensorBufferBacking) × Nat)
  | idx, acc, [] => .ok (acc, idx)
  | idx, acc, t :: rest =>
      match env.alloc idx (gpuBufferRequest env t) with
      | .error _ => .error ()
      | .ok gpu =>
          match env.alloc (idx + 1) (stagingBufferRequest env t) with
          | .error _ => .error ()
          | .ok staging =>
              if t.readback_enabled then
                match env.alloc (idx + 2) (readbackBufferRequest env t) with
                | .error _ => .error ()
                | .ok rb =>
                    newTaskAlloc env (idx + 3)
                      (hmInsert acc t.id
                        { gpu_buffer := gpu, staging_buffer := staging,
                          readback_buffer := some rb }) rest
              else
                newTaskAlloc env (idx + 2)
                  (hmInsert acc t.id
                    { gpu_buffer := gpu, staging_buffer := staging,
                      readback_buffer := none }) rest

/-- The descriptor-write loop of `new_task`: for the i-th binding, look its
backing up in the finished map (`buffer_backing.get(&binding.id).unwrap()` —
`none` models the panic of that unwrap) and produce the write with
`dst_binding = i`, the device-local buffer, offset 0 and range = byte length
of the tensor data. -/
def descriptorWritesFor (m : List (Nat × TensorBufferBacking)) (dstSet : Nat) :
    Nat → List Tensor → Option (List DescriptorWrite)
  | _, [] => some []
  | i, t :: rest =>
      match hmGet m t.id with
      | none => none
      | some bk =>
          match descriptorWritesFor m dstSet (i + 1) rest with
          | none => none
          | some ws =>
              some ({ dst_set := dstSet, dst_binding := i, dst_array_element := 0,
                      descriptor_count := 1, buffer := bk.gpu_buffer.handle,
                      offset := 0, range := t.local_data.length * 4 } :: ws)

/-- src/lib/gpu_task.rs: `ComputeManager::new_task`.  Allocates the buffer
triads, creates a fresh descriptor pool (max_sets = 10, one pool size of
`bindings.len()` storage-buffer descriptors), allocates the descriptor set
from that fresh pool against the pipeline's set layout, writes one
storage-buffer descriptor per binding, allocates and begins the command
buffer, and immediately records the pipeline and descriptor-set binds.
Each failure produces the corresponding `errno` with no task; the outer
`none` models a panic (the `.unwrap()` in the descriptor-write loop). -/
def new_task (env : NewTaskEnv) (pipeline : Pipeline) (bindings : List Tensor) :
    Option (GPUTaskInProcess × List Event) :=
  match newTaskAlloc env 0 [] bindings with
  | .error _ => some ({ errno := some .BufferAllocationFailure, task := none }, [])
  | .ok (buffer_backing, _) =>
      match env.createDescriptorPool with
      | .error _ => some ({ errno := some .DescriptorSetAllocationFailure, task := none }, [])
      | .ok pool =>
          let evs1 := [Event.createDescriptorPool pool 10 1 bindings.length]
          match env.allocateDescriptorSets with
          | .error _ =>
              some ({ errno := some .DescriptorSetAllocationFailure, task := none }, evs1)
          | .ok dset =>
              let evs2 := evs1 ++
                [Event.allocateDescriptorSet pool pipeline.descriptor_set_layout dset]
              match descriptorWritesFor buffer_backing dset 0 bindings with
              | none => none
              | some writes =>
                  let evs3 := evs2 ++ [Event.updateDescriptorSets writes]
                  match env.allocateCommandBuffer with
                  | .error _ =>
                      some ({ errno := some .CommandBufferAllocationFailure, task := none },
                            evs3)
                  | .ok cb =>
                      let evs4 := evs3 ++ [Event.allocateCommandBuffer cb]
                      match env.beginCommandBuffer with
                      | .error _ =>
                          some ({ errno := some .CommandBufferRecordingStartFailure,
                                  task := none }, evs4)
                      | .ok _ =>
                          let cmds := [Cmd.bindPipeline pipeline.pipeline,
                                       Cmd.bindDescriptorSets pipeline.pipeline_layout dset]
                          some ({ errno := none,
                                  task := some { command_buffer := cb, commands := cmds,
                                                 buffers := buffer_backing,
                                                 descriptor_set := dset,
                                                 parent_descriptor_pool := pool } },
                                evs4 ++ [Event.beginCommandBuffer cb] ++
                                  cmds.map Event.recorded)


/-- The `log::error!` message for a tensor with no backing in the task. -/
def backingMsg : String :=
  "Failed to find backing buffer for tensor! This is an internal issue!"

/-- The `log::error!` message for a backing without a readback buffer. -/
def readbackMsg : String :=
  "Tensor has no readback buffer! Did you enable readback on creation?"

/-- Projection of a recording event to the command it records. -/
def recordedCmd : Event → Option Cmd
  | Event.recorded c => some c
  | _ => none

/-- Whether an event records a pipeline barrier. -/
def isBarrierEvent : Event → Bool
  | Event.recorded (Cmd.pipelineBarrier _ _ _ _) => true
  | _ => false

/-- Per-tensor body of the `for_each` in `op_local_sync_device`: look up the
backing (missing backing is reported and skipped), memcpy the host data into
the mapped staging buffer, and record the staging-to-device-local copy of
`len*4` bytes. -/
def syncDeviceTensor (task : GPUTask) (t : Tensor) : List Event :=
  match hmGet task.buffers t.id with
  | none => [Event.report backingMsg]
  | some bk =>
      [Event.hostCopy bk.staging_buffer.handle t.local_data,
       Event.recorded (Cmd.copyBuffer bk.staging_buffer.handle bk.gpu_buffer.handle
         0 0 (t.local_data.length * 4))]

/-- The single barrier `op_local_sync_device` inserts after all copies:
transfer to compute-shader, memory-write to memory-write | memory-read. -/
def localSyncBarrier : Cmd :=
  Cmd.pipelineBarrier PipelineStageFlags.TRANSFER PipelineStageFlags.COMPUTE_SHADER
    AccessFlags.MEMORY_WRITE (AccessFlags.MEMORY_WRITE ||| AccessFlags.MEMORY_READ)

/-- src/lib/gpu_task.rs: `GPUTaskInProcess::op_local_sync_device`.  Checked
no-op at entry when the builder has failed; otherwise per-tensor host copy
plus recorded device copy, then one pipeline barrier. -/
def op_local_sync_device (b : GPUTaskInProcess) (tensors : List Tensor) :
    GPUTaskInProcess × List Event :=
  match b.task, b.errno with
  | some task, none =>
      let evs := tensors.flatMap (syncDeviceTensor task) ++ [Event.recorded localSyncBarrier]
      ({ b with task := some { task with
           commands := task.commands ++ evs.filterMap recordedCmd } }, evs)
  | _, _ => (b, [])

/-- src/lib/gpu_task.rs: `GPUTaskInProcess::op_pipeline_dispatch`.  Checked
no-op at entry when the builder has failed; otherwise records one dispatch. -/
def op_pipeline_dispatch (b : GPUTaskInProcess) (wg : WorkGroupSize) :
    GPUTaskInProcess × List Event :=
  match b.task, b.errno with
  | some task, none =>
      ({ b with task := some { task with
           commands := task.commands ++ [Cmd.dispatch wg.x wg.y wg.z] } },
       [Event.recorded (Cmd.dispatch wg.x wg.y wg.z)])
  | _, _ => (b, [])

/-- The barrier `op_device_sync_local` inserts before the readback copies:
compute-shader to transfer, memory-write to memory-read. -/
def devSyncBarrier : Cmd :=
  Cmd.pipelineBarrier PipelineStageFlags.COMPUTE_SHADER PipelineStageFlags.TRANSFER
    AccessFlags.MEMORY_WRITE AccessFlags.MEMORY_READ

/-- Per-tensor body of the `for_each` in `op_device_sync_local`: a tensor
with no backing is reported and skipped; a backing with no readback buffer is
reported and skipped; otherwise the device-local-to-readback copy of `len*4`
bytes is recorded.  The final `none` arm models the `.unwrap()` on the
readback buffer, which the preceding `is_none` guard makes unreachable. -/
def devSyncLocalTensor (task : GPUTask) (t : Tensor) : Option (List Event) :=
  match hmGet task.buffers t.id with
  | none => some [Event.report backingMsg]
  | some bk =>
      if bk.readback_buffer.isNone then
        some [Event.report readbackMsg]
      else
        match bk.readback_buffer with
        | some rb =>
            some [Event.recorded (Cmd.copyBuffer bk.gpu_buffer.handle rb.handle
              0 0 (t.local_data.length * 4))]
        | none => none

/-- The `for_each` of `op_device_sync_local` over the tensor list. -/
def devSyncLoop (task : GPUTask) : List Tensor → Option (List Event)
  | [] => some []
  | t :: rest =>
      match devSyncLocalTensor task t with
      | none => none
      | some evs =>
          match devSyncLoop task rest with
          | none => none
          | some evss => some (evs ++ evss)

/-- src/lib/gpu_task.rs: `GPUTaskInProcess::op_device_sync_local`.  Checked
no-op at entry when the builder has failed; otherwise one barrier, then the
per-tensor readback copies; `none` models a panic inside the loop. -/
def op_device_sync_local (b : GPUTaskInProcess) (tensors : List Tensor) :
    Option (GPUTaskInProcess × List Event) :=
  match b.task, b.errno with
  | some task, none =>
      match devSyncLoop task tensors with
      | none => none
      | some tevs =>
          let evs := Event.recorded devSyncBarrier :: tevs
          some ({ b with task := some { task with
                    commands := task.commands ++ evs.filterMap recordedCmd } }, evs)
  | _, _ => some (b, [])

/-- src/lib/gpu_task.rs: `GPUTaskInProcess::finalize` — the stored errno
first, then the task, else the internal-invariant error. -/
def finalize (b : GPUTaskInProcess) : Except GPUTaskRecordingError GPUTask :=
  match b.errno with
  | some e => .error e
  | none =>
      match b.task with
      | some t => .ok t
      | none => .error .UnknownError

/-- One chained builder call, for reasoning about blind call chains. -/
inductive BuilderOp where
  | localSyncDevice (tensors : List Tensor)
  | pipelineDispatch (wg : WorkGroupSize)
  | deviceSyncLocal (tensors : List Tensor)

/-- Apply one builder call; `none` models a panic inside the call. -/
def applyOp (b : GPUTaskInProcess) : BuilderOp → Option (GPUTaskInProcess × List Event)
  | BuilderOp.localSyncDevice ts => some (op_local_sync_device b ts)
  | BuilderOp.pipelineDispatch wg => some (op_pipeline_dispatch b wg)
  | BuilderOp.deviceSyncLocal ts => op_device_sync_local b ts

/-- Run a chain of builder calls, accumulating all events. -/
def runOps (b : GPUTaskInProcess) : List BuilderOp → Option (GPUTaskInProcess × List Event)
  | [] => some (b, [])
  | op :: rest =>
      match applyOp b op with
      | none => none
      | some (b', evs) =>
          match runOps b' rest with
          | none => none
          | some (b'', evss) => some (b'', evs ++ evss)

/-- Words read back from a mapped readback buffer by the `copy_from` in
`await_task`: `len` words starting at the mapped pointer. -/
def readWords (mapped : List Nat) (len : Nat) : List Nat :=
  (List.range len).map (fun i => mapped.getD i 0)

/-- Per-tensor body of the `for_each` in `await_task`: a tensor with no
backing in the task is reported and left untouched; otherwise the tensor data
is overwritten in place from the mapped readback buffer.  `none` models the
panic of `backing.readback_buffer.as_ref().unwrap()` when the backing has no
readback buffer. -/
def awaitSyncTensor (bufs : List (Nat × TensorBufferBacking)) (t : Tensor) :
    Option (Tensor × List Event) :=
  match hmGet bufs t.id with
  | none => some (t, [Event.report backingMsg])
  | some bk =>
      match bk.readback_buffer with
      | none => none
      | some rb =>
          some ({ t with local_data := readWords rb.mapped t.local_data.length }, [])

/-- The `for_each` of `await_task` over `sync_tensors`. -/
def awaitLoop (bufs : List (Nat × TensorBufferBacking)) :
    List Tensor → Option (List Tensor × List Event)
  | [] => some ([], [])
  | t :: rest =>
      match awaitSyncTensor bufs t with
      | none => none
      | some (t', evs) =>
          match awaitLoop bufs rest with
          | none => none
          | some (ts, evss) => some (t' :: ts, evs ++ evss)

/-- src/lib/gpu_task.rs: `ComputeManager::await_task`.  Waits on the fence
with timeout `u64::MAX` (an indefinite wait), destroys the fence, then syncs
each requested tensor from its readback buffer; `none` models a panic inside
the loop. -/
def await_task (fence : Nat) (parent : GPUTask) (sync_tensors : List Tensor) :
    Option (List Tensor × List Event) :=
  match awaitLoop parent.buffers sync_tensors with
  | none => none
  | some (ts, evs) =>
      some (ts, [Event.waitFences fence (2 ^ 64 - 1), Event.destroyFence fence] ++ evs)

/-- First event allocating a descriptor set in a trace, with the pool it was
allocated from. -/
def poolUsedForSet (evs : List Event) : Option Nat :=
  evs.findSome? (fun e =>
    match e with
    | Event.allocateDescriptorSet p _ _ => some p
    | _ => none)

/-- Concrete allocator oracle: buffer object creation succeeds (handle 7),
the memory sub-allocation fails, binding would succeed. -/
def c2env : AllocEnv :=
  { createBufferResult := .ok 7, memAllocResult := .error (), bindResult := .ok () }

/-- Concrete allocator oracle: buffer object creation fails. -/
def c2wenv1 : AllocEnv :=
  { createBufferResult := .error (), memAllocResult := .ok [], bindResult := .ok () }

/-- Concrete allocator oracle: creation succeeds (handle 11), sub-allocation
fails. -/
def c2wenv2 : AllocEnv :=
  { createBufferResult := .ok 11, memAllocResult := .error (), bindResult := .ok () }

/-- Concrete allocator oracle: creation and sub-allocation succeed (handle 12),
the memory bind fails. -/
def c2wenv3 : AllocEnv :=
  { createBufferResult := .ok 12, memAllocResult := .ok [0, 0], bindResult := .error () }

/-- Concrete inputs for a run of `create_tensor` calls. -/
def c9inputs : List (List Nat × Bool) := [([1, 2], true), ([3], false), ([], true)]

/-- Concrete pipeline with four distinct object handles. -/
def c8pipe : Pipeline :=
  { pipeline := 1, pipeline_layout := 2, descriptor_set_layout := 3, descriptor_pool := 4 }

/-- Concrete tensor bound with readback disabled (id 3). -/
def c10tensor : Tensor := { id := 3, readback_enabled := false, local_data := [1, 2, 3] }

/-- Backing for `c10tensor`: no readback buffer, as `new_task` produces for a
readback-disabled tensor. -/
def c10backing : TensorBufferBacking :=
  { gpu_buffer := { handle := 20, mapped := [] },
    staging_buffer := { handle := 21, mapped := [5, 5, 5] },
    readback_buffer := none }

/-- Concrete task holding `c10backing` under id 3. -/
def c10task : GPUTask :=
  { command_buffer := 30, commands := [], buffers := [(3, c10backing)],
    descriptor_set := 31, parent_descriptor_pool := 32 }

/-- Concrete task with no backing at all. -/
def c10taskMissing : GPUTask :=
  { command_buffer := 33, commands := [], buffers := [],
    descriptor_set := 34, parent_descriptor_pool := 35 }

/-- Concrete tensor bound with readback disabled (id 0). -/
def c6tensor : Tensor := { id := 0, readback_enabled := false, local_data := [9] }

/-- Backing for `c6tensor` without a readback buffer. -/
def c6backing : TensorBufferBacking :=
  { gpu_buffer := { handle := 40, mapped := [] },
    staging_buffer := { handle := 41, mapped := [] },
    readback_buffer := none }

/-- Concrete task holding `c6backing` under id 0. -/
def c6task : GPUTask :=
  { command_buffer := 42, commands := [], buffers := [(0, c6backing)],
    descriptor_set := 43, parent_descriptor_pool := 44 }

/-- Concrete readback-enabled tensor (id 1) for the await witness. -/
def c6wtA : Tensor := { id := 1, readback_enabled := true, local_data := [0, 0] }

/-- Concrete tensor (id 2) with no backing in the witness task. -/
def c6wtB : Tensor := { id := 2, readback_enabled := false, local_data := [7] }

/-- Backing for `c6wtA` with a mapped readback buffer holding words 11 and 12. -/
def c6wbackingA : TensorBufferBacking :=
  { gpu_buffer := { handle := 50, mapped := [] },
    staging_buffer := { handle := 51, mapped := [] },
    readback_buffer := some { handle := 52, mapped := [11, 12] } }

/-- Concrete task holding `c6wbackingA` under id 1. -/
def c6wtask : GPUTask :=
  { command_buffer := 53, commands := [], buffers := [(1, c6wbackingA)],
    descriptor_set := 54, parent_descriptor_pool := 55 }

/-- Concrete tensor (id 6, readback disabled) for the sync-local witness. -/
def c7tensor : Tensor := { id := 6, readback_enabled := false, local_data := [4, 4] }

/-- Backing for `c7tensor` without a readback buffer. -/
def c7backing : TensorBufferBacking :=
  { gpu_buffer := { handle := 60, mapped := [] },
    staging_buffer := { handle := 61, mapped := [] },
    readback_buffer := none }

/-- Concrete task holding `c7backing` under id 6. -/
def c7task : GPUTask :=
  { command_buffer := 62, commands := [Cmd.bindPipeline 63], buffers := [(6, c7backing)],
    descriptor_set := 64, parent_descriptor_pool := 65 }

/-- Concrete recording builder over `c7task`. -/
def c7builder : GPUTaskInProcess := { errno := none, task := some c7task }

/-- Concrete failed builder (buffer allocation failed during `new_task`). -/
def c3builder : GPUTaskInProcess :=
  { errno := some GPUTaskRecordingError.BufferAllocationFailure, task := none }

/-- Concrete tensor used in the chained no-op calls. -/
def c3tensor : Tensor := { id := 9, readback_enabled := true, local_data := [8] }

/-- A blind chain of all three recording calls. -/
def c3ops : List BuilderOp :=
  [BuilderOp.localSyncDevice [c3tensor],
   BuilderOp.pipelineDispatch { x := 1, y := 1, z := 1 },
   BuilderOp.deviceSyncLocal [c3tensor]]

/-- Concrete tensor (id 8, readback enabled) for the upload witness. -/
def c5tensor : Tensor := { id := 8, readback_enabled := true, local_data := [2, 3] }

/-- Backing for `c5tensor`. -/
def c5backing : TensorBufferBacking :=
  { gpu_buffer := { handle := 66, mapped := [] },
    staging_buffer := { handle := 67, mapped := [0, 0] },
    readback_buffer := some { handle := 68, mapped := [0, 0] } }

/-- Concrete task holding `c5backing` under id 8. -/
def c5task : GPUTask :=
  { command_buffer := 69, commands := [], buffers := [(8, c5backing)],
    descriptor_set := 71, parent_descriptor_pool := 72 }

/-- Concrete recording builder over `c5task`. -/
def c5builder : GPUTaskInProcess := { errno := none, task := some c5task }

/-- Oracle for a fully successful `new_task` run: allocation i yields buffer
handle 100 + i, the fresh descriptor pool is handle 50, the set handle 60,
the command buffer handle 70. -/
def c1env : NewTaskEnv :=
  { alloc := fun i _ => .ok { handle := 100 + i, mapped := [] },
    createDescriptorPool := .ok 50,
    allocateDescriptorSets := .ok 60,
    allocateCommandBuffer := .ok 70,
    beginCommandBuffer := .ok (),
    computeQueueFamily := 0 }

/-- Concrete pipeline the `c1env` task is built against. -/
def c1pipe : Pipeline :=
  { pipeline := 80, pipeline_layout := 81, descriptor_set_layout := 82, descriptor_pool := 83 }

/-- Readback-enabled binding (id 0). -/
def c1ta : Tensor := { id := 0, readback_enabled := true, local_data := [5] }

/-- Readback-disabled binding (id 1). -/
def c1tb : Tensor := { id := 1, readback_enabled := false, local_data := [6, 7] }

/-- The `c1env` run of `new_task`. -/
def c1run : Option (GPUTaskInProcess × List Event) := new_task c1env c1pipe [c1ta, c1tb]

/-- Fallback task for projections out of optional results. -/
def fallbackTask : GPUTask :=
  { command_buffer := 0, commands := [], buffers := [], descriptor_set := 0,
    parent_descriptor_pool := 0 }

/-- The builder produced by the `c1env` run. -/
def c1b : GPUTaskInProcess := (c1run.getD ({ errno := none, task := none }, [])).1

/-- The events produced by the `c1env` run. -/
def c1evs : List Event := (c1run.getD ({ errno := none, task := none }, [])).2

/-- The task produced by the `c1env` run. -/
def c1task : GPUTask := c1b.task.getD fallbackTask

/-- Oracle for a successful `new_task` run for the descriptor-set claims:
allocation i yields handle 200 + i, fresh pool handle 50, set handle 60,
command buffer handle 70. -/
def c4envX : NewTaskEnv :=
  { alloc := fun i _ => .ok { handle := 200 + i, mapped := [] },
    createDescriptorPool := .ok 50,
    allocateDescriptorSets := .ok 60,
    allocateCommandBuffer := .ok 70,
    beginCommandBuffer := .ok (),
    computeQueueFamily := 2 }

/-- Oracle for `build_pipeline` handles 1..4 (descriptor pool handle 4). -/
def c4penv : PipelineEnv :=
  { createDescriptorSetLayout := .ok 1, createPipelineLayout := .ok 2,
    createComputePipelines := .ok 3, createDescriptorPool := .ok 4 }

/-- Pipeline built by `build_pipeline` from `c4penv` with 2 tensors. -/
def c4pipeX : Pipeline :=
  ((build_pipeline c4penv 90 2).toOption.getD
    ({ pipeline := 0, pipeline_layout := 0, descriptor_set_layout := 0,
       descriptor_pool := 0 }, [])).1

/-- Two bindings for the descriptor-set run. -/
def c4bindingsX : List Tensor :=
  [{ id := 0, readback_enabled := true, local_data := [1, 2] },
   { id := 1, readback_enabled := false, local_data := [3] }]

/-- The `c4envX` run of `new_task` against the `build_pipeline` pipeline. -/
def c4runX : Option (GPUTaskInProcess × List Event) := new_task c4envX c4pipeX c4bindingsX

/-- The builder produced by the `c4envX` run. -/
def c4bX : GPUTaskInProcess := (c4runX.getD ({ errno := none, task := none }, [])).1

/-- The events produced by the `c4envX` run. -/
def c4evsX : List Event := (c4runX.getD ({ errno := none, task := none }, [])).2

/-- The task produced by the `c4envX` run. -/
def c4taskX : GPUTask := c4bX.task.getD fallbackTask

theorem hmGet_hmInsert_self {α : Type} (m : List (Nat × α)) (k : Nat) (v : α) :
    hmGet (hmInsert m k v) k = some v := by
  induction m with
  | nil => simp [hmInsert, hmGet]
  | cons p rest ih =>
      obtain ⟨k', v'⟩ := p
      by_cases h : k' = k
      · simp [hmInsert, hmGet, h]
      · simp [hmInsert, hmGet, h, ih]

theorem hmGet_hmInsert_ne {α : Type} (m : List (Nat × α)) (k k' : Nat) (v : α)
    (h : k' ≠ k) : hmGet (hmInsert m k v) k' = hmGet m k' := by
  induction m with
  | nil => simp [hmInsert, hmGet, Ne.symm h]
  | cons p rest ih =>
      obtain ⟨k₀, v₀⟩ := p
      by_cases h0 : k₀ = k
      · subst h0
        simp [hmInsert, hmGet, Ne.symm h]
      · simp [hmInsert, hmGet, h0, ih]

theorem runCreates_ids (inputs : List (List Nat × Bool)) :
    ∀ s : Nat, s + inputs.length ≤ 2 ^ 32 →
      ((runCreates s inputs).1.map Tensor.id) = List.range' s inputs.length := by
  induction inputs with
  | nil => intro s _; simp [runCreates]
  | cons hd tl ih =>
      intro s hs
      obtain ⟨d, r⟩ := hd
      simp only [List.length_cons] at hs
      by_cases hwrap : s + 1 = 2 ^ 32
      · have htl : tl.length = 0 := by omega
        have htl' : tl = [] := List.length_eq_zero.mp htl
        subst htl'
        simp [runCreates, create_tensor, List.range']
      · have hmod : (s + 1) % 2 ^ 32 = s + 1 := Nat.mod_eq_of_lt (by omega)
        have := ih (s + 1) (by omega)
        simp only [runCreates, create_tensor, hmod]
        simp only [List.map_cons, this]
        rfl

/-- C9: every sequence of fewer than 2^32 `create_tensor` calls on one
ComputeManager (counter starting at 0, as `compute_init` sets it) assigns the
ids 0, 1, 2, ... in order: pairwise distinct, monotonically increasing from 0,
and never reassigned within the sequence. -/
theorem C9_tensor_ids_unique (inputs : List (List Nat × Bool))
    (h : inputs.length < 2 ^ 32) :
    ((runCreates 0 inputs).1.map Tensor.id) = List.range inputs.length ∧
    ((runCreates 0 inputs).1.map Tensor.id).Nodup ∧
    List.Pairwise (fun a b => a < b) ((runCreates 0 inputs).1.map Tensor.id) := by
  have hids := runCreates_ids inputs 0 (by omega)
  rw [List.range_eq_range']
  refine ⟨hids, ?_, ?_⟩
  · rw [hids, ← List.range_eq_range']
    exact List.nodup_range _
  · rw [hids, ← List.range_eq_range']
    exact List.pairwise_lt_range _

/-- Witness for C9 at a concrete three-call sequence. -/
theorem C9_tensor_ids_unique_witness :
    c9inputs.length < 2 ^ 32 ∧
    (((runCreates 0 c9inputs).1.map Tensor.id) = List.range c9inputs.length ∧
     ((runCreates 0 c9inputs).1.map Tensor.id).Nodup ∧
     List.Pairwise (fun a b => a < b) ((runCreates 0 c9inputs).1.map Tensor.id)) :=
  ⟨by decide, C9_tensor_ids_unique c9inputs (by decide)⟩

/-- C8 counterexample: at a concrete pipeline with handles 1..4, the destroy
order is not pipeline first, then layout, then set layout, then pool — the
source destroys the compute pipeline last, not first. -/
theorem C8_drop_order_counterexample :
    pipelineDrop c8pipe ≠
      [DestroyEvent.pipeline 1, DestroyEvent.pipelineLayout 2,
       DestroyEvent.descriptorSetLayout 3, DestroyEvent.descriptorPool 4] := by
  decide

/-- C8 (amended): `Drop for Pipeline` releases the four GPU objects in the
order pipeline layout, descriptor-set layout, descriptor pool, and the
compute pipeline last. -/
theorem C8_drop_order (p : Pipeline) :
    pipelineDrop p =
      [DestroyEvent.pipelineLayout p.pipeline_layout,
       DestroyEvent.descriptorSetLayout p.descriptor_set_layout,
       DestroyEvent.descriptorPool p.descriptor_pool,
       DestroyEvent.pipeline p.pipeline] := rfl

/-- C2 counterexample: with buffer creation succeeding (handle 7) and memory
sub-allocation failing, `allocate_buffer` returns `MemoryAllocationError` but
never destroys the created buffer object — the claimed cleanup does not
happen, so the buffer object is leaked. -/
theorem C2_no_destroy_counterexample :
    c2env.createBufferResult = .ok 7 ∧
    (allocate_buffer c2env 16 BufferUsageFlags.STORAGE_BUFFER MemoryLocation.GpuOnly
      "buf" 0).1 = .error .MemoryAllocationError ∧
    AllocEvent.destroyBuffer 7 ∉
      (allocate_buffer c2env 16 BufferUsageFlags.STORAGE_BUFFER MemoryLocation.GpuOnly
        "buf" 0).2 := by
  refine ⟨rfl, rfl, ?_⟩
  decide

/-- C2 (amended): the three `allocate_buffer` failure modes are surfaced as
the distinct kinds `BufferCreationFailure`, `MemoryAllocationError` and
`MemoryBindFailure`; but when memory sub-allocation fails after the buffer
object was created, the allocator does not destroy the created buffer object
(no destroy call occurs on that path — the object is leaked to the caller). -/
theorem C2_allocate_buffer_error_paths (env1 env2 env3 : AllocEnv)
    (h2 h3 size usage : Nat) (loc : MemoryLocation) (name : String) (qf : Nat)
    (hc1 : env1.createBufferResult = .error ())
    (hc2 : env2.createBufferResult = .ok h2)
    (hm2 : env2.memAllocResult = .error ())
    (hc3 : env3.createBufferResult = .ok h3)
    (hm3 : env3.memAllocResult.isOk = true)
    (hb3 : env3.bindResult = .error ()) :
    (allocate_buffer env1 size usage loc name qf).1 = .error .BufferCreationFailure ∧
    (allocate_buffer env2 size usage loc name qf).1 = .error .MemoryAllocationError ∧
    (∀ h, AllocEvent.destroyBuffer h ∉ (allocate_buffer env2 size usage loc name qf).2) ∧
    (allocate_buffer env3 size usage loc name qf).1 = .error .MemoryBindFailure := by
  refine ⟨?_, ?_, ?_, ?_⟩
  · simp [allocate_buffer, hc1]
  · simp [allocate_buffer, hc2, hm2]
  · intro h
    simp [allocate_buffer, hc2, hm2]
  · cases hok : env3.memAllocResult with
    | error e => rw [hok] at hm3; simp [Except.isOk, Except.toBool] at hm3
    | ok m => simp [allocate_buffer, hc3, hok, hb3]

/-- Witness for C2 at three concrete allocator oracles. -/
theorem C2_allocate_buffer_error_paths_witness :
    (c2wenv1.createBufferResult = .error () ∧
     c2wenv2.createBufferResult = .ok 11 ∧
     c2wenv2.memAllocResult = .error () ∧
     c2wenv3.createBufferResult = .ok 12 ∧
     c2wenv3.memAllocResult.isOk = true ∧
     c2wenv3.bindResult = .error ()) ∧
    ((allocate_buffer c2wenv1 4 1 MemoryLocation.CpuToGpu "a" 0).1 =
        .error .BufferCreationFailure ∧
     (allocate_buffer c2wenv2 4 1 MemoryLocation.CpuToGpu "a" 0).1 =
        .error .MemoryAllocationError ∧
     (∀ h, AllocEvent.destroyBuffer h ∉
        (allocate_buffer c2wenv2 4 1 MemoryLocation.CpuToGpu "a" 0).2) ∧
     (allocate_buffer c2wenv3 4 1 MemoryLocation.CpuToGpu "a" 0).1 =
        .error .MemoryBindFailure) :=
  ⟨⟨rfl, rfl, rfl, rfl, rfl, rfl⟩,
   C2_allocate_buffer_error_paths c2wenv1 c2wenv2 c2wenv3 11 12 4 1
     MemoryLocation.CpuToGpu "a" 0 rfl rfl rfl rfl rfl rfl⟩

/-- C10: `await_task` panics when a requested tensor has a backing whose
`readback_buffer` is `None` (the `.unwrap()` on the absent readback buffer
— modelled as the `none` result), while a tensor with no backing at all is
reported and left untouched. -/
theorem C10_await_task_panics :
    await_task 7 c10task [c10tensor] = none ∧
    await_task 7 c10taskMissing [c10tensor] =
      some ([c10tensor],
        [Event.waitFences 7 (2 ^ 64 - 1), Event.destroyFence 7,
         Event.report backingMsg]) :=
  ⟨rfl, rfl⟩

/-- C6 counterexample: at a concrete task whose only bound tensor has a
backing without a readback buffer, `await_task` does not complete (it
panics on the readback unwrap), so the claimed per-tensor overwrite
behavior of every `await_task` call fails at this input. -/
theorem C6_await_counterexample : await_task 5 c6task [c6tensor] = none := rfl

theorem op_local_sync_device_failed (b : GPUTaskInProcess) (ts : List Tensor)
    (e : GPUTaskRecordingError) (h : b.errno = some e) :
    op_local_sync_device b ts = (b, []) := by
  obtain ⟨errno, task⟩ := b
  simp only at h
  subst h
  cases task <;> rfl

theorem op_pipeline_dispatch_failed (b : GPUTaskInProcess) (wg : WorkGroupSize)
    (e : GPUTaskRecordingError) (h : b.errno = some e) :
    op_pipeline_dispatch b wg = (b, []) := by
  obtain ⟨errno, task⟩ := b
  simp only at h
  subst h
  cases task <;> rfl

theorem op_device_sync_local_failed (b : GPUTaskInProcess) (ts : List Tensor)
    (e : GPUTaskRecordingError) (h : b.errno = some e) :
    op_device_sync_local b ts = some (b, []) := by
  obtain ⟨errno, task⟩ := b
  simp only at h
  subst h
  cases task <;> rfl

theorem applyOp_failed (b : GPUTaskInProcess) (op : BuilderOp)
    (e : GPUTaskRecordingError) (h : b.errno = some e) :
    applyOp b op = some (b, []) := by
  cases op with
  | localSyncDevice ts => simp [applyOp, op_local_sync_device_failed b ts e h]
  | pipelineDispatch wg => simp [applyOp, op_pipeline_dispatch_failed b wg e h]
  | deviceSyncLocal ts => simp [applyOp, op_device_sync_local_failed b ts e h]

/-- C3: on a builder in the failed state, every blind chain of
`op_local_sync_device`, `op_pipeline_dispatch` and `op_device_sync_local`
calls is a no-op checked at entry — the builder is returned unchanged and no
event (no recording, no host copy) is produced — and `finalize` then returns
the stored error kind, which the no-op chain has preserved unchanged. -/
theorem C3_failed_builder_noop (b : GPUTaskInProcess) (e : GPUTaskRecordingError)
    (ops : List BuilderOp) (h : b.errno = some e) :
    runOps b ops = some (b, []) ∧ finalize b = .error e := by
  constructor
  · induction ops with
    | nil => rfl
    | cons op rest ih => simp [runOps, applyOp_failed b op e h, ih]
  · simp [finalize, h]

/-- Witness for C3 at a concrete failed builder and a chain containing all
three recording calls. -/
theorem C3_failed_builder_noop_witness :
    c3builder.errno = some GPUTaskRecordingError.BufferAllocationFailure ∧
    (runOps c3builder c3ops = some (c3builder, []) ∧
     finalize c3builder = .error GPUTaskRecordingError.BufferAllocationFailure) :=
  ⟨rfl, C3_failed_builder_noop c3builder GPUTaskRecordingError.BufferAllocationFailure
    c3ops rfl⟩

theorem devSyncLocalTensor_isSome (task : GPUTask) (t : Tensor) :
    (devSyncLocalTensor task t).isSome = true := by
  unfold devSyncLocalTensor
  cases hget : hmGet task.buffers t.id with
  | none => rfl
  | some bk =>
      cases hrb : bk.readback_buffer with
      | none => simp [hrb]
      | some rb => simp [hrb]

theorem devSyncLoop_isSome (task : GPUTask) (ts : List Tensor) :
    (devSyncLoop task ts).isSome = true := by
  induction ts with
  | nil => rfl
  | cons t rest ih =>
      unfold devSyncLoop
      have h1 := devSyncLocalTensor_isSome task t
      cases h : devSyncLocalTensor task t with
      | none => rw [h] at h1; simp at h1
      | some evs =>
          cases h2 : devSyncLoop task rest with
          | none => rw [h2] at ih; simp at ih
          | some evss => simp

/-- C7: on a recording builder, `op_device_sync_local` treats a tensor with
no backing in the task, or a backing without a readback buffer, as a soft
condition: the per-tensor step produces only a diagnostic report and records
no command, the whole call completes without panicking, the builder does not
enter the failed state, and `finalize` still succeeds. -/
theorem C7_device_sync_local_soft_skip (b : GPUTaskInProcess) (task : GPUTask)
    (tensors : List Tensor) (t : Tensor)
    (hb : b.task = some task) (he : b.errno = none) (_hmem : t ∈ tensors)
    (hskip : ((hmGet task.buffers t.id).all fun bk => bk.readback_buffer.isNone) = true) :
    (∃ b' evs, op_device_sync_local b tensors = some (b', evs) ∧
      b'.errno = none ∧ ∃ tk, b'.task = some tk ∧ finalize b' = .ok tk) ∧
    (∃ l, devSyncLocalTensor task t = some l ∧ ∀ c, Event.recorded c ∉ l) := by
  constructor
  · obtain ⟨errno, btask⟩ := b
    simp only at hb he
    subst hb
    subst he
    have hloop := devSyncLoop_isSome task tensors
    cases h : devSyncLoop task tensors with
    | none => rw [h] at hloop; simp at hloop
    | some tevs =>
        exact ⟨{ errno := none, task := some { task with
            commands := task.commands ++
              ((Event.recorded devSyncBarrier :: tevs).filterMap recordedCmd) } },
          Event.recorded devSyncBarrier :: tevs,
          by simp [op_device_sync_local, h],
          rfl,
          { task with commands := task.commands ++
              ((Event.recorded devSyncBarrier :: tevs).filterMap recordedCmd) },
          rfl, rfl⟩
  · cases hget : hmGet task.buffers t.id with
    | none =>
        refine ⟨[Event.report backingMsg], ?_, ?_⟩
        · simp [devSyncLocalTensor, hget]
        · intro c; simp
    | some bk =>
        rw [hget] at hskip
        simp only [Option.all_some] at hskip
        refine ⟨[Event.report readbackMsg], ?_, ?_⟩
        · simp [devSyncLocalTensor, hget, hskip]
        · intro c; simp

/-- Witness for C7 at a concrete recording builder whose bound tensor has no
readback buffer. -/
theorem C7_device_sync_local_soft_skip_witness :
    (c7builder.task = some c7task ∧ c7builder.errno = none ∧
     c7tensor ∈ [c7tensor] ∧
     ((hmGet c7task.buffers c7tensor.id).all fun bk => bk.readback_buffer.isNone) = true) ∧
    ((∃ b' evs, op_device_sync_local c7builder [c7tensor] = some (b', evs) ∧
        b'.errno = none ∧ ∃ tk, b'.task = some tk ∧ finalize b' = .ok tk) ∧
     (∃ l, devSyncLocalTensor c7task c7tensor = some l ∧ ∀ c, Event.recorded c ∉ l)) :=
  ⟨⟨rfl, rfl, by decide, by decide⟩,
   C7_device_sync_local_soft_skip c7builder c7task [c7tensor] c7tensor rfl rfl
     (by decide) (by decide)⟩

theorem syncDeviceTensor_no_barrier (task : GPUTask) (t : Tensor) :
    (syncDeviceTensor task t).filter isBarrierEvent = [] := by
  unfold syncDeviceTensor
  cases hget : hmGet task.buffers t.id with
  | none => rfl
  | some bk => rfl

theorem flatMap_syncDeviceTensor_no_barrier (task : GPUTask) (ts : List Tensor) :
    (ts.flatMap (syncDeviceTensor task)).filter isBarrierEvent = [] := by
  induction ts with
  | nil => rfl
  | cons t rest ih =>
      simp only [List.flatMap_cons, List.filter_append,
        syncDeviceTensor_no_barrier, ih, List.nil_append]

/-- C5: on a recording builder, `op_local_sync_device` processes the tensors
in list order — for each bound tensor a host copy into the mapped staging
buffer immediately followed by the recorded staging-to-device-local copy —
and only after all per-tensor copies does it insert exactly one pipeline
barrier, from the transfer stage to the compute-shader stage, with source
access memory-write and destination access memory-write | memory-read; that
barrier is the last event of the call. -/
theorem C5_local_sync_device_order (b : GPUTaskInProcess) (task : GPUTask)
    (tensors : List Tensor)
    (hb : b.task = some task) (he : b.errno = none)
    (hall : ∀ t ∈ tensors, (hmGet task.buffers t.id).isSome = true) :
    (op_local_sync_device b tensors).2 =
        tensors.flatMap (syncDeviceTensor task) ++ [Event.recorded localSyncBarrier] ∧
    (∀ t ∈ tensors, ∃ bk, hmGet task.buffers t.id = some bk ∧
        syncDeviceTensor task t =
          [Event.hostCopy bk.staging_buffer.handle t.local_data,
           Event.recorded (Cmd.copyBuffer bk.staging_buffer.handle
             bk.gpu_buffer.handle 0 0 (t.local_data.length * 4))]) ∧
    ((op_local_sync_device b tensors).2.filter isBarrierEvent) =
        [Event.recorded (Cmd.pipelineBarrier PipelineStageFlags.TRANSFER
          PipelineStageFlags.COMPUTE_SHADER AccessFlags.MEMORY_WRITE
          (AccessFlags.MEMORY_WRITE ||| AccessFlags.MEMORY_READ))] ∧
    (op_local_sync_device b tensors).2.getLast? = some (Event.recorded localSyncBarrier) := by
  obtain ⟨errno, btask⟩ := b
  simp only at hb he
  subst hb
  subst he
  have hevs : (op_local_sync_device { errno := none, task := some task } tensors).2 =
      tensors.flatMap (syncDeviceTensor task) ++ [Event.recorded localSyncBarrier] := rfl
  refine ⟨hevs, ?_, ?_, ?_⟩
  · intro t ht
    have hsome := hall t ht
    cases hget : hmGet task.buffers t.id with
    | none => rw [hget] at hsome; simp at hsome
    | some bk =>
        exact ⟨bk, rfl, by simp [syncDeviceTensor, hget]⟩
  · rw [hevs, List.filter_append, flatMap_syncDeviceTensor_no_barrier, List.nil_append]
    rfl
  · rw [hevs]
    exact List.getLast?_concat _

/-- Witness for C5 at a concrete recording builder with one bound tensor. -/
theorem C5_local_sync_device_order_witness :
    (c5builder.task = some c5task ∧ c5builder.errno = none ∧
     (∀ t ∈ [c5tensor], (hmGet c5task.buffers t.id).isSome = true)) ∧
    ((op_local_sync_device c5builder [c5tensor]).2 =
        [c5tensor].flatMap (syncDeviceTensor c5task) ++ [Event.recorded localSyncBarrier] ∧
     (∀ t ∈ [c5tensor], ∃ bk, hmGet c5task.buffers t.id = some bk ∧
        syncDeviceTensor c5task t =
          [Event.hostCopy bk.staging_buffer.handle t.local_data,
           Event.recorded (Cmd.copyBuffer bk.staging_buffer.handle
             bk.gpu_buffer.handle 0 0 (t.local_data.length * 4))]) ∧
     ((op_local_sync_device c5builder [c5tensor]).2.filter isBarrierEvent) =
        [Event.recorded (Cmd.pipelineBarrier PipelineStageFlags.TRANSFER
          PipelineStageFlags.COMPUTE_SHADER AccessFlags.MEMORY_WRITE
          (AccessFlags.MEMORY_WRITE ||| AccessFlags.MEMORY_READ))] ∧
     (op_local_sync_device c5builder [c5tensor]).2.getLast? =
        some (Event.recorded localSyncBarrier)) :=
  ⟨⟨rfl, rfl, by decide⟩,
   C5_local_sync_device_order c5builder c5task [c5tensor] rfl rfl (by decide)⟩

theorem awaitLoop_sync (bufs : List (Nat × TensorBufferBacking)) (ts : List Tensor)
    (h : ∀ t ∈ ts, ((hmGet bufs t.id).all fun bk => bk.readback_buffer.isSome) = true) :
    ∃ ts' evs, awaitLoop bufs ts = some (ts', evs) ∧
      List.Forall₂ (fun t t' =>
        (hmGet bufs t.id = none → t' = t) ∧
        (∀ bk rb, hmGet bufs t.id = some bk → bk.readback_buffer = some rb →
          t' = { t with local_data := readWords rb.mapped t.local_data.length })) ts ts' := by
  induction ts with
  | nil => exact ⟨[], [], rfl, List.Forall₂.nil⟩
  | cons t rest ih =>
      have hrest := ih (fun t' ht' => h t' (List.mem_cons_of_mem t ht'))
      obtain ⟨ts', evs, heq, hrel⟩ := hrest
      have ht := h t (List.mem_cons_self t rest)
      cases hget : hmGet bufs t.id with
      | none =>
          refine ⟨t :: ts', [Event.report backingMsg] ++ evs, ?_, ?_⟩
          · simp [awaitLoop, awaitSyncTensor, hget, heq]
          · refine List.Forall₂.cons ⟨fun _ => rfl, ?_⟩ hrel
            intro bk rb hbk _
            rw [hget] at hbk
            cases hbk
      | some bk =>
          rw [hget] at ht
          simp only [Option.all_some] at ht
          cases hrb : bk.readback_buffer with
          | none => rw [hrb] at ht; simp at ht
          | some rb =>
              refine ⟨{ t with local_data := readWords rb.mapped t.local_data.length } :: ts',
                [] ++ evs, ?_, ?_⟩
              · simp [awaitLoop, awaitSyncTensor, hget, hrb, heq]
              · refine List.Forall₂.cons ⟨?_, ?_⟩ hrel
                · intro hnone; rw [hget] at hnone; cases hnone
                · intro bk' rb' hbk' hrb'
                  rw [hget] at hbk'
                  cases hbk'
                  rw [hrb] at hrb'
                  cases hrb'
                  rfl

/-- C6 (amended): `await_task` waits on the fence with timeout u64::MAX (an
indefinite wait) and then destroys it; then, provided every requested tensor
whose backing exists has a readback buffer, the call completes and for each
requested tensor: if it has no backing in the task it is reported and its
data is left completely unchanged, and if it has a backing its data is
overwritten in place from the mapped readback buffer.  (Without that proviso
the call panics on the readback unwrap instead of completing — see the
counterexample.) -/
theorem C6_await_task_sync (fence : Nat) (task : GPUTask) (sync_tensors : List Tensor)
    (h : ∀ t ∈ sync_tensors,
      ((hmGet task.buffers t.id).all fun bk => bk.readback_buffer.isSome) = true) :
    ∃ ts' evs, await_task fence task sync_tensors =
        some (ts', [Event.waitFences fence (2 ^ 64 - 1), Event.destroyFence fence] ++ evs) ∧
      List.Forall₂ (fun t t' =>
        (hmGet task.buffers t.id = none → t' = t) ∧
        (∀ bk rb, hmGet task.buffers t.id = some bk → bk.readback_buffer = some rb →
          t' = { t with local_data := readWords rb.mapped t.local_data.length }))
        sync_tensors ts' := by
  obtain ⟨ts', evs, heq, hrel⟩ := awaitLoop_sync task.buffers sync_tensors h
  exact ⟨ts', evs, by simp [await_task, heq], hrel⟩

/-- Witness for C6 at a concrete task: one tensor with a readback-backed
backing, one tensor with no backing. -/
theorem C6_await_task_sync_witness :
    (∀ t ∈ [c6wtA, c6wtB],
      ((hmGet c6wtask.buffers t.id).all fun bk => bk.readback_buffer.isSome) = true) ∧
    (∃ ts' evs, await_task 9 c6wtask [c6wtA, c6wtB] =
        some (ts', [Event.waitFences 9 (2 ^ 64 - 1), Event.destroyFence 9] ++ evs) ∧
      List.Forall₂ (fun t t' =>
        (hmGet c6wtask.buffers t.id = none → t' = t) ∧
        (∀ bk rb, hmGet c6wtask.buffers t.id = some bk → bk.readback_buffer = some rb →
          t' = { t with local_data := readWords rb.mapped t.local_data.length }))
        [c6wtA, c6wtB] ts') :=
  ⟨by decide, C6_await_task_sync 9 c6wtask [c6wtA, c6wtB] (by decide)⟩

theorem newTaskAlloc_lookup (env : NewTaskEnv) (bindings : List Tensor) :
    ∀ (idx : Nat) (acc m : List (Nat × TensorBufferBacking)) (idx' : Nat),
      newTaskAlloc env idx acc bindings = .ok (m, idx') →
      ∀ k, k ∉ bindings.map Tensor.id → hmGet m k = hmGet acc k := by
  induction bindings with
  | nil =>
      intro idx acc m idx' h k _
      simp only [newTaskAlloc, Except.ok.injEq, Prod.mk.injEq] at h
      rw [← h.1]
  | cons t0 rest ih =>
      intro idx acc m idx' h k hk
      simp only [List.map_cons, List.mem_cons, not_or] at hk
      obtain ⟨hkne, hkrest⟩ := hk
      simp only [newTaskAlloc] at h
      cases hgpu : env.alloc idx (gpuBufferRequest env t0) with
      | error e => rw [hgpu] at h; simp at h
      | ok gpu =>
          rw [hgpu] at h
          cases hstg : env.alloc (idx + 1) (stagingBufferRequest env t0) with
          | error e => rw [hstg] at h; simp at h
          | ok stg =>
              rw [hstg] at h
              cases hre : t0.readback_enabled with
              | true =>
                  rw [hre] at h
                  simp only [if_true] at h
                  cases hrb : env.alloc (idx + 2) (readbackBufferRequest env t0) with
                  | error e => rw [hrb] at h; simp at h
                  | ok rb =>
                      rw [hrb] at h
                      have := ih (idx + 3)
                        (hmInsert acc t0.id
                          { gpu_buffer := gpu, staging_buffer := stg,
                            readback_buffer := some rb }) m idx' h k hkrest
                      rw [this, hmGet_hmInsert_ne acc t0.id k _ hkne]
              | false =>
                  rw [hre] at h
                  simp only [if_false, Bool.false_eq_true] at h
                  have := ih (idx + 2)
                    (hmInsert acc t0.id
                      { gpu_buffer := gpu, staging_buffer := stg,
                        readback_buffer := none }) m idx' h k hkrest
                  rw [this, hmGet_hmInsert_ne acc t0.id k _ hkne]

theorem newTaskAlloc_backing (env : NewTaskEnv) (bindings : List Tensor) :
    ∀ (idx : Nat) (acc m : List (Nat × TensorBufferBacking)) (idx' : Nat),
      newTaskAlloc env idx acc bindings = .ok (m, idx') →
      (bindings.map Tensor.id).Nodup →
      ∀ t ∈ bindings, ∃ bk, hmGet m t.id = some bk ∧
        bk.readback_buffer.isSome = t.readback_enabled := by
  induction bindings with
  | nil => intro idx acc m idx' _ _ t ht; simp at ht
  | cons t0 rest ih =>
      intro idx acc m idx' h hnodup t ht
      simp only [List.map_cons, List.nodup_cons] at hnodup
      obtain ⟨hid0, hnodup'⟩ := hnodup
      simp only [newTaskAlloc] at h
      cases hgpu : env.alloc idx (gpuBufferRequest env t0) with
      | error e => rw [hgpu] at h; simp at h
      | ok gpu =>
          rw [hgpu] at h
          cases hstg : env.alloc (idx + 1) (stagingBufferRequest env t0) with
          | error e => rw [hstg] at h; simp at h
          | ok stg =>
              rw [hstg] at h
              rcases List.mem_cons.mp ht with hteq | htrest
              · subst hteq
                cases hre : t.readback_enabled with
                | true =>
                    rw [hre] at h
                    simp only [if_true] at h
                    cases hrb : env.alloc (idx + 2) (readbackBufferRequest env t) with
                    | error e => rw [hrb] at h; simp at h
                    | ok rb =>
                        rw [hrb] at h
                        refine ⟨{ gpu_buffer := gpu, staging_buffer := stg,
                                  readback_buffer := some rb }, ?_, by simp [hre]⟩
                        rw [newTaskAlloc_lookup env rest _ _ m idx' h t.id hid0]
                        exact hmGet_hmInsert_self acc t.id _
                | false =>
                    rw [hre] at h
                    simp only [if_false, Bool.false_eq_true] at h
                    refine ⟨{ gpu_buffer := gpu, staging_buffer := stg,
                              readback_buffer := none }, ?_, by simp [hre]⟩
                    rw [newTaskAlloc_lookup env rest _ _ m idx' h t.id hid0]
                    exact hmGet_hmInsert_self acc t.id _
              · cases hre : t0.readback_enabled with
                | true =>
                    rw [hre] at h
                    simp only [if_true] at h
                    cases hrb : env.alloc (idx + 2) (readbackBufferRequest env t0) with
                    | error e => rw [hrb] at h; simp at h
                    | ok rb =>
                        rw [hrb] at h
                        exact ih (idx + 3) _ m idx' h hnodup' t htrest
                | false =>
                    rw [hre] at h
                    simp only [if_false, Bool.false_eq_true] at h
                    exact ih (idx + 2) _ m idx' h hnodup' t htrest

theorem descriptorWritesFor_spec (m : List (Nat × TensorBufferBacking)) (s : Nat) :
    ∀ (ts : List Tensor) (i : Nat) (ws : List DescriptorWrite),
      descriptorWritesFor m s i ts = some ws →
      ws.length = ts.length ∧
      ∀ (j : Nat) (t : Tensor), ts[j]? = some t → ∃ bk, hmGet m t.id = some bk ∧
        ws[j]? = some { dst_set := s, dst_binding := i + j, dst_array_element := 0,
                        descriptor_count := 1, buffer := bk.gpu_buffer.handle,
                        offset := 0, range := t.local_data.length * 4 } := by
  intro ts
  induction ts with
  | nil =>
      intro i ws h
      simp only [descriptorWritesFor, Option.some.injEq] at h
      subst h
      refine ⟨rfl, ?_⟩
      intro j t hjt
      simp at hjt
  | cons t0 rest ih =>
      intro i ws h
      simp only [descriptorWritesFor] at h
      cases hget : hmGet m t0.id with
      | none => simp only [hget] at h; exact Option.noConfusion h
      | some bk =>
          simp only [hget] at h
          cases hrec : descriptorWritesFor m s (i + 1) rest with
          | none => simp only [hrec] at h; exact Option.noConfusion h
          | some ws' =>
              simp only [hrec, Option.some.injEq] at h
              subst h
              obtain ⟨hlen, hspec⟩ := ih (i + 1) ws' hrec
              constructor
              · simp only [List.length_cons, hlen]
              · intro j t hjt
                cases j with
                | zero =>
                    simp only [List.getElem?_cons_zero, Option.some.injEq] at hjt
                    subst hjt
                    exact ⟨bk, hget, by simp⟩
                | succ j' =>
                    simp only [List.getElem?_cons_succ] at hjt ⊢
                    obtain ⟨bk', hbk', hws⟩ := hspec j' t hjt
                    rw [show i + 1 + j' = i + (j' + 1) from by omega] at hws
                    exact ⟨bk', hbk', hws⟩

theorem new_task_success (env : NewTaskEnv) (pipe : Pipeline) (bindings : List Tensor)
    (b : GPUTaskInProcess) (evs : List Event) (task : GPUTask)
    (hrun : new_task env pipe bindings = some (b, evs))
    (htask : b.task = some task) :
    ∃ m idx pool dset cb writes,
      newTaskAlloc env 0 [] bindings = .ok (m, idx) ∧
      env.createDescriptorPool = .ok pool ∧
      env.allocateDescriptorSets = .ok dset ∧
      descriptorWritesFor m dset 0 bindings = some writes ∧
      env.allocateCommandBuffer = .ok cb ∧
      task = { command_buffer := cb,
               commands := [Cmd.bindPipeline pipe.pipeline,
                            Cmd.bindDescriptorSets pipe.pipeline_layout dset],
               buffers := m, descriptor_set := dset, parent_descriptor_pool := pool } ∧
      evs = [Event.createDescriptorPool pool 10 1 bindings.length,
             Event.allocateDescriptorSet pool pipe.descriptor_set_layout dset,
             Event.updateDescriptorSets writes,
             Event.allocateCommandBuffer cb,
             Event.beginCommandBuffer cb,
             Event.recorded (Cmd.bindPipeline pipe.pipeline),
             Event.recorded (Cmd.bindDescriptorSets pipe.pipeline_layout dset)] := by
  simp only [new_task] at hrun
  cases halloc : newTaskAlloc env 0 [] bindings with
  | error e =>
      simp only [halloc, Option.some.injEq, Prod.mk.injEq] at hrun
      rw [← hrun.1] at htask
      simp at htask
  | ok pr =>
      obtain ⟨m, idx⟩ := pr
      simp only [halloc] at hrun
      cases hpool : env.createDescriptorPool with
      | error e =>
          simp only [hpool, Option.some.injEq, Prod.mk.injEq] at hrun
          rw [← hrun.1] at htask
          simp at htask
      | ok pool =>
          simp only [hpool] at hrun
          cases hdset : env.allocateDescriptorSets with
          | error e =>
              simp only [hdset, Option.some.injEq, Prod.mk.injEq] at hrun
              rw [← hrun.1] at htask
              simp at htask
          | ok dset =>
              simp only [hdset] at hrun
              cases hwr : descriptorWritesFor m dset 0 bindings with
              | none =>
                  simp only [hwr] at hrun
                  exact Option.noConfusion hrun
              | some writes =>
                  simp only [hwr] at hrun
                  cases hcb : env.allocateCommandBuffer with
                  | error e =>
                      simp only [hcb, Option.some.injEq, Prod.mk.injEq] at hrun
                      rw [← hrun.1] at htask
                      simp at htask
                  | ok cb =>
                      simp only [hcb] at hrun
                      cases hbeg : env.beginCommandBuffer with
                      | error e =>
                          simp only [hbeg, Option.some.injEq, Prod.mk.injEq] at hrun
                          rw [← hrun.1] at htask
                          simp at htask
                      | ok u =>
                          simp only [hbeg, Option.some.injEq, Prod.mk.injEq] at hrun
                          obtain ⟨hb, hevs⟩ := hrun
                          rw [← hb] at htask
                          simp only [Option.some.injEq] at htask
                          refine ⟨m, idx, pool, dset, cb, writes, rfl, rfl, rfl,
                            hwr, rfl, ?_, ?_⟩
                          · rw [← htask]
                          · rw [← hevs]
                            simp

/-- C1: for every successful `new_task` call over bindings with distinct ids,
each bound tensor gets a backing in the task whose `readback_buffer` is `Some`
exactly when the tensor's `readback_enabled` flag was true at task-build time;
and for a readback-disabled tensor, the per-tensor step of
`op_device_sync_local` produces only the diagnostic report — it records no
device-to-readback copy for that tensor. -/
theorem C1_readback_backing_iff (env : NewTaskEnv) (pipe : Pipeline)
    (bindings : List Tensor) (b : GPUTaskInProcess) (evs : List Event) (task : GPUTask)
    (hrun : new_task env pipe bindings = some (b, evs))
    (htask : b.task = some task)
    (hnodup : (bindings.map Tensor.id).Nodup) :
    ∀ t ∈ bindings, ∃ bk, hmGet task.buffers t.id = some bk ∧
      bk.readback_buffer.isSome = t.readback_enabled ∧
      (t.readback_enabled = false →
        ∃ l, devSyncLocalTensor task t = some l ∧ ∀ c, Event.recorded c ∉ l) := by
  obtain ⟨m, idx, pool, dset, cb, writes, halloc, hpool, hdset, hwr, hcb, htaskeq, hevs⟩ :=
    new_task_success env pipe bindings b evs task hrun htask
  intro t ht
  obtain ⟨bk, hget, hiff⟩ :=
    newTaskAlloc_backing env bindings 0 [] m idx halloc hnodup t ht
  have hbuf : task.buffers = m := by rw [htaskeq]
  refine ⟨bk, by rw [hbuf]; exact hget, hiff, ?_⟩
  intro hfalse
  have hrbnone : bk.readback_buffer = none := by
    cases hrbc : bk.readback_buffer with
    | none => rfl
    | some rb => rw [hrbc, hfalse] at hiff; simp at hiff
  refine ⟨[Event.report readbackMsg], ?_, ?_⟩
  · simp [devSyncLocalTensor, hbuf, hget, hrbnone]
  · intro c
    simp

/-- Witness for C1 at a fully successful concrete run binding one
readback-enabled and one readback-disabled tensor. -/
theorem C1_readback_backing_iff_witness :
    (new_task c1env c1pipe [c1ta, c1tb] = some (c1b, c1evs) ∧
     c1b.task = some c1task ∧ ([c1ta, c1tb].map Tensor.id).Nodup) ∧
    (∀ t ∈ [c1ta, c1tb], ∃ bk, hmGet c1task.buffers t.id = some bk ∧
      bk.readback_buffer.isSome = t.readback_enabled ∧
      (t.readback_enabled = false →
        ∃ l, devSyncLocalTensor c1task t = some l ∧ ∀ c, Event.recorded c ∉ l)) :=
  ⟨⟨rfl, rfl, by decide⟩,
   C1_readback_backing_iff c1env c1pipe [c1ta, c1tb] c1b c1evs c1task rfl rfl
     (by decide)⟩

/-- C4 counterexample: at a concrete successful `new_task` run against a
pipeline built by `build_pipeline` (whose descriptor pool is handle 4), the
descriptor set is allocated from the fresh pool handle 50 that `new_task`
itself created — not from the pipeline's pool, contradicting the claim that
the set is allocated from the pool owned by the pipeline. -/
theorem C4_pool_counterexample :
    c4runX = some (c4bX, c4evsX) ∧ c4bX.task = some c4taskX ∧
    c4pipeX.descriptor_pool = 4 ∧
    poolUsedForSet c4evsX = some 50 ∧
    poolUsedForSet c4evsX ≠ some c4pipeX.descriptor_pool := by
  refine ⟨rfl, rfl, rfl, rfl, ?_⟩
  decide

/-- C4 (amended): during a successful `new_task` with n bound tensors, the
descriptor set is allocated from a fresh descriptor pool created by
`new_task` itself (sized to one storage-buffer pool size of n descriptors,
max 10 sets, recorded as the task's `parent_descriptor_pool`) against the
pipeline's descriptor-set layout — not from the pool `build_pipeline`
created; and one storage-buffer descriptor is written per binding, pointing
at that binding's device-local buffer with offset 0, range equal to the byte
length of the tensor's data, and binding index equal to the positional index
in the bindings list. -/
theorem C4_descriptor_writes (env : NewTaskEnv) (pipe : Pipeline)
    (bindings : List Tensor) (b : GPUTaskInProcess) (evs : List Event) (task : GPUTask)
    (hrun : new_task env pipe bindings = some (b, evs))
    (htask : b.task = some task) :
    Event.createDescriptorPool task.parent_descriptor_pool 10 1 bindings.length ∈ evs ∧
    Event.allocateDescriptorSet task.parent_descriptor_pool pipe.descriptor_set_layout
      task.descriptor_set ∈ evs ∧
    ∃ ws, Event.updateDescriptorSets ws ∈ evs ∧
      descriptorWritesFor task.buffers task.descriptor_set 0 bindings = some ws ∧
      ws.length = bindings.length ∧
      ∀ (j : Nat) (t : Tensor), bindings[j]? = some t →
        ∃ bk, hmGet task.buffers t.id = some bk ∧
          ws[j]? = some { dst_set := task.descriptor_set, dst_binding := j,
                          dst_array_element := 0, descriptor_count := 1,
                          buffer := bk.gpu_buffer.handle, offset := 0,
                          range := t.local_data.length * 4 } := by
  obtain ⟨m, idx, pool, dset, cb, writes, halloc, hpool, hdset, hwr, hcb, htaskeq, hevs⟩ :=
    new_task_success env pipe bindings b evs task hrun htask
  have hpds : task.parent_descriptor_pool = pool := by rw [htaskeq]
  have hds : task.descriptor_set = dset := by rw [htaskeq]
  have hbuf : task.buffers = m := by rw [htaskeq]
  subst hevs
  obtain ⟨hlen, hspec⟩ := descriptorWritesFor_spec m dset bindings 0 writes hwr
  refine ⟨?_, ?_, writes, ?_, ?_, hlen, ?_⟩
  · rw [hpds]; simp
  · rw [hpds, hds]; simp
  · simp
  · rw [hbuf, hds]; exact hwr
  · intro j t hjt
    obtain ⟨bk, hbk, hws⟩ := hspec j t hjt
    rw [hbuf, hds]
    refine ⟨bk, hbk, ?_⟩
    rw [hws]
    simp

/-- Witness for C4 at the concrete `c4envX` run. -/
theorem C4_descriptor_writes_witness :
    (new_task c4envX c4pipeX c4bindingsX = some (c4bX, c4evsX) ∧
     c4bX.task = some c4taskX) ∧
    (Event.createDescriptorPool c4taskX.parent_descriptor_pool 10 1
        c4bindingsX.length ∈ c4evsX ∧
     Event.allocateDescriptorSet c4taskX.parent_descriptor_pool
        c4pipeX.descriptor_set_layout c4taskX.descriptor_set ∈ c4evsX ∧
     ∃ ws, Event.updateDescriptorSets ws ∈ c4evsX ∧
       descriptorWritesFor c4taskX.buffers c4taskX.descriptor_set 0 c4bindingsX = some ws ∧
       ws.length = c4bindingsX.length ∧
       ∀ (j : Nat) (t : Tensor), c4bindingsX[j]? = some t →
         ∃ bk, hmGet c4taskX.buffers t.id = some bk ∧
           ws[j]? = some { dst_set := c4taskX.descriptor_set, dst_binding := j,
                           dst_array_element := 0, descriptor_count := 1,
                           buffer := bk.gpu_buffer.handle, offset := 0,
                           range := t.local_data.length * 4 }) :=
  ⟨⟨rfl, rfl⟩,
   C4_descriptor_writes c4envX c4pipeX c4bindingsX c4bX c4evsX c4taskX rfl rfl⟩
